import Mathlib

/-!
Shallow embedding of the front-end UI controllers of this repository
(fade effect, navigation bar, scroll-reveal), translated from
`src/scripts/components/fadeEffect.js`, `src/scripts/components/navbar.js`
and `src/scripts/components/scrollAnimations.js`.

DOM-visible state (CSS classes, `aria-expanded` strings, inline styles) is
carried in explicit state records; JS numbers are modelled as rationals;
event/timer scheduling is modelled by explicit time-stamped step functions.
-/

/-! ## Scroll-Reveal Controller (`scrollAnimations.js`) -/

/-- Per-element state seen by the polling strategy: the element's
`getBoundingClientRect().top` and whether the active class is present. -/
structure SRElem where
  top : ℚ
  active : Bool
  deriving DecidableEq, Repr

/-- `elementInView(el, offset)`: `elementTop <= viewportHeight / offset`. -/
def elementInView (top vh offset : ℚ) : Bool :=
  decide (top ≤ vh / offset)

/-- `elementOutOfView(el)`: `elementTop > viewportHeight`. -/
def elementOutOfView (top vh : ℚ) : Bool :=
  decide (vh < top)

/-- Body of the per-element branch inside `handleScroll`'s animation-frame
callback: `if (elementInView(el, 1.25)) display; else if (elementOutOfView(el))
hide;` — otherwise the element is left untouched. -/
def evalScrollElement (vh : ℚ) (e : SRElem) : SRElem :=
  if elementInView e.top vh 1.25 then { e with active := true }
  else if elementOutOfView e.top vh then { e with active := false }
  else e

/-- One evaluation pass of the polling strategy: `this.elementos.forEach`
applying the branch above to every tracked element. -/
def handleScrollPass (vh : ℚ) (els : List SRElem) : List SRElem :=
  els.map (evalScrollElement vh)

/-- Per-element state seen by the observation strategy: whether the active
class is present and whether the observer is still observing the element. -/
structure ObsElem where
  active : Bool
  observed : Bool
  deriving DecidableEq, Repr

/-- One `IntersectionObserver` entry delivered for an element, from
`setupObserver`: an unobserved element receives no notification; if
intersecting, the active class is added and, when `observarUnaVez` is set,
the element is unobserved; if not intersecting, the class is removed only
when `observarUnaVez` is not set. -/
def notifyEntry (once inter : Bool) (e : ObsElem) : ObsElem :=
  if !e.observed then e
  else if inter then { active := true, observed := !once }
  else if !once then { e with active := false }
  else e

/-- A sequence of observer notifications for one element, delivered in
order (each `Bool` is that entry's `isIntersecting`). -/
def notifyAll (once : Bool) (e : ObsElem) (ns : List Bool) : ObsElem :=
  ns.foldl (fun s i => notifyEntry once i s) e

/-! ## Fade Controller (`fadeEffect.js`) -/

/-- State of a `FadeEffect` animation session: the clamped duration, the
`startTime` field (`null` before the first frame), the last opacity value
written, the `willChange` inline style, whether an animation-frame callback
is currently scheduled, and how many times `cleanupStyle` has run. -/
structure FadeState where
  duration : ℚ
  startTime : Option ℚ
  opacity : ℚ
  willChange : String
  rafPending : Bool
  cleanupCount : ℕ
  deriving DecidableEq, Repr

/-- State right after `start()` found its element, given the constructor
argument `d`: the constructor clamps `duration = Math.max(0, d)`, `start`
writes `opacity = '0'`, `willChange = 'opacity'`, resets `startTime` to
`null` and schedules the first frame. -/
def startState (d : ℚ) : FadeState :=
  { duration := max 0 d
    startTime := none
    opacity := 0
    willChange := "opacity"
    rafPending := true
    cleanupCount := 0 }

/-- The `step(timestamp)` animation-frame callback: `if (!this.startTime)
this.startTime = timestamp` (JS truthiness: `null` and `0` both reset),
`progress = Math.min(1, elapsed / Math.max(1, duration))`, write opacity,
then either schedule another frame (`progress < 1`) or run `cleanupStyle`
(clear `willChange`, force opacity to `'1'`). -/
def fadeStep (s : FadeState) (timestamp : ℚ) : FadeState :=
  let st :=
    match s.startTime with
    | none => timestamp
    | some t => if t = 0 then timestamp else t
  let elapsed := timestamp - st
  let progress := min 1 (elapsed / max 1 s.duration)
  if progress < 1 then
    { s with startTime := some st, opacity := progress, rafPending := true }
  else
    { s with startTime := some st, opacity := 1, willChange := ""
             rafPending := false, cleanupCount := s.cleanupCount + 1 }

/-- Run the animation across a sequence of frame timestamps: the callback
body executes at a timestamp only if a frame is actually scheduled. -/
def runFrames (s : FadeState) : List ℚ → FadeState
  | [] => s
  | t :: ts => runFrames (if s.rafPending then fadeStep s t else s) ts

/-- A complete run with duration argument `D`: first frame at `t0`,
intermediate frames `ts`, final frame at `t0 + D` (elapsed exactly `D`). -/
def fadeRun (D t0 : ℚ) (ts : List ℚ) : FadeState :=
  runFrames (startState D) (t0 :: ts ++ [t0 + D])

/-! ## Navigation Controller (`navbar.js`): menu / item state -/

/-- DOM-visible state managed by `BarraNavegacion`, plus the internal
suppression flag and timer: the three burger-menu classes, the toggle
button's `aria-expanded`, presence and state of the language menu and list,
the per-item active flags (document order), `permiteClickReciente` and the
absolute time at which the pending `setTimeout(..., 800)` fires. -/
structure MenuState where
  burgerActive : Bool
  navActive : Bool
  headerActive : Bool
  burgerAria : String
  langPresent : Bool
  langListPresent : Bool
  langListActive : Bool
  langMenuActive : Bool
  langAria : String
  navItems : List Bool
  permite : Bool
  deadline : Option ℚ
  deriving DecidableEq, Repr

/-- `toggleMenuElements()`: toggle the three lockstep classes and mirror the
new burger-class state into `aria-expanded`. -/
def toggleMenuElements (s : MenuState) : MenuState :=
  let b := !s.burgerActive
  { s with burgerActive := b
           navActive := !s.navActive
           headerActive := !s.headerActive
           burgerAria := if b then "true" else "false" }

/-- `closeLangMenu()`: no-op when the language menu is absent; otherwise
remove the list's active class (when the list exists), remove the menu's
active class and set the menu's `aria-expanded` to `"false"`. -/
def closeLangMenu (s : MenuState) : MenuState :=
  if s.langPresent then
    { s with langListActive := if s.langListPresent then false else s.langListActive
             langMenuActive := false
             langAria := "false" }
  else s

/-- `onBurgerClick()`: `toggleMenuElements(); closeLangMenu();`. -/
def onBurgerClick (s : MenuState) : MenuState :=
  closeLangMenu (toggleMenuElements s)

/-- `deactivateAllNavItems()`: remove `item--active` from every item. -/
def deactivateAllNavItems (s : MenuState) : MenuState :=
  { s with navItems := s.navItems.map (fun _ => false) }

/-- `classList.toggle` of the active class on the item at an index. -/
def toggleItem : List Bool → ℕ → List Bool
  | [], _ => []
  | b :: bs, 0 => (!b) :: bs
  | b :: bs, n + 1 => b :: toggleItem bs n

/-- `onNavItemClick(e, item)` at wall-clock time `t`, clicking item `i`: set
`permiteClickReciente`, clear the pending timeout, `toggleMenuElements()`,
`deactivateAllNavItems()`, toggle the clicked item's active class, and
schedule a timeout that resets the flag 800 ms later. -/
def onNavItemClick (t : ℚ) (i : ℕ) (s : MenuState) : MenuState :=
  let s := { s with permite := true, deadline := none }
  let s := toggleMenuElements s
  let s := deactivateAllNavItems s
  let s := { s with navItems := toggleItem s.navItems i }
  { s with deadline := some (t + 800) }

/-- Event-loop timer semantics: before any callback runs at time `t`, a
scheduled `setTimeout` whose firing time has arrived has already run; its
body is `permiteClickReciente = false`. -/
def fireDueTimer (t : ℚ) (s : MenuState) : MenuState :=
  match s.deadline with
  | some d => if d ≤ t then { s with permite := false, deadline := none } else s
  | none => s

/-- The body of `onWindowScroll`'s coalesced animation-frame callback,
running at time `t`: `if (!this.permiteClickReciente)
this.deactivateAllNavItems();` — with any due suppression timer having
fired first. -/
def scrollFrameAt (t : ℚ) (s : MenuState) : MenuState :=
  if (fireDueTimer t s).permite then fireDueTimer t s
  else deactivateAllNavItems (fireDueTimer t s)

/-- The spec's intended post-click item distribution: a list of the given
length whose only `true` entry is at the given index. -/
def exactlyOne : ℕ → ℕ → List Bool
  | 0, _ => []
  | n + 1, 0 => true :: List.replicate n false
  | n + 1, j + 1 => false :: exactlyOne n j

/-! ## Navigation Controller: listener accounting -/

/-- Event-listener targets touched by `BarraNavegacion`. -/
inductive NavTgt where
  | burger
  | langMenu
  | doc
  | window
  | navItem (i : ℕ)
  | langItem (i : ℕ)
  deriving DecidableEq, Repr

/-- Event types attached by `BarraNavegacion`. -/
inductive NavEv where
  | click
  | keydown
  | scroll
  deriving DecidableEq, Repr

/-- The listeners attached by `setupEventListeners()`, in attachment order,
for a page with `nNav` navigation items, `nLang` language items and the
language-menu button present iff `hasLang`: burger click+keydown, language
menu click+keydown, document click, per nav item click+keydown, per language
item click+keydown, window scroll. Each pair is a distinct callback. -/
def attachedListeners (hasLang : Bool) (nNav nLang : ℕ) : List (NavTgt × NavEv) :=
  [(NavTgt.burger, NavEv.click), (NavTgt.burger, NavEv.keydown)] ++
    (if hasLang then [(NavTgt.langMenu, NavEv.click), (NavTgt.langMenu, NavEv.keydown)]
     else []) ++
    [(NavTgt.doc, NavEv.click)] ++
    ((List.range nNav).flatMap
      (fun i => [(NavTgt.navItem i, NavEv.click), (NavTgt.navItem i, NavEv.keydown)])) ++
    ((List.range nLang).flatMap
      (fun i => [(NavTgt.langItem i, NavEv.click), (NavTgt.langItem i, NavEv.keydown)])) ++
    [(NavTgt.window, NavEv.scroll)]

/-- The `removeEventListener` calls issued by `destroy()` after a successful
`init()`: burger click+keydown, language menu click+keydown (when present),
document click, window scroll, and — for each item — only the stored
`_navClickHandler` / `_langClickHandler` click handler. No `keydown`
removal is issued for any nav or language item. -/
def destroyRemovals (hasLang : Bool) (nNav nLang : ℕ) : List (NavTgt × NavEv) :=
  [(NavTgt.burger, NavEv.click), (NavTgt.burger, NavEv.keydown)] ++
    (if hasLang then [(NavTgt.langMenu, NavEv.click), (NavTgt.langMenu, NavEv.keydown)]
     else []) ++
    [(NavTgt.doc, NavEv.click), (NavTgt.window, NavEv.scroll)] ++
    ((List.range nNav).map (fun i => (NavTgt.navItem i, NavEv.click))) ++
    ((List.range nLang).map (fun i => (NavTgt.langItem i, NavEv.click)))

/-- Listeners still attached after `destroy()`: each `removeEventListener`
call detaches exactly the listener registered with the same target, event
type and callback (every attached pair here carries a distinct callback). -/
def remainingAfterDestroy (hasLang : Bool) (nNav nLang : ℕ) : List (NavTgt × NavEv) :=
  (attachedListeners hasLang nNav nLang).filter
    (fun l => !(destroyRemovals hasLang nNav nLang).contains l)

/-! ## Navigation Controller: `destroy()` on a never-initialized instance -/

/-- The element references `destroy()` dereferences, as left by the
constructor or by `init()`: `burger`/`langMenu` may be `null` (guarded by
`if` in `destroy`), while `navItems`/`langItems` are `null` until `init()`
assigns them a (possibly empty) NodeList, modelled by its length. -/
structure NavRefs where
  burger : Bool
  langMenu : Bool
  navItems : Option ℕ
  langItems : Option ℕ
  deriving DecidableEq, Repr

/-- Field state after `new BarraNavegacion({ autoInit: false })`: the
constructor nulls every element reference and `init()` never runs. -/
def navbarConstructedState : NavRefs :=
  { burger := false, langMenu := false, navItems := none, langItems := none }

/-- Field state after an `init()` that aborted early because required
elements were missing: `findElement` returned `null` for them, but
`findElements` already assigned (empty) NodeLists to the item collections. -/
def navbarAbortedInitState : NavRefs :=
  { burger := false, langMenu := false, navItems := some 0, langItems := some 0 }

/-- `destroy()` as a fallible computation: the `burger`/`langMenu` blocks
are `if`-guarded and `removeEventListener` tolerates a `null` handler, but
`this.navItems.forEach(...)` (and then `this.langItems.forEach(...)`)
throws a `TypeError` when the field is still `null`. On success all
references are reset. -/
def destroyRun (s : NavRefs) : Except String NavRefs :=
  match s.navItems with
  | none => Except.error "TypeError: cannot read forEach of null navItems"
  | some _ =>
    match s.langItems with
    | none => Except.error "TypeError: cannot read forEach of null langItems"
    | some _ =>
      Except.ok { burger := false, langMenu := false
                  navItems := some 0, langItems := some 0 }

/-- A sample page state used as concrete input by witnesses: burger menu
closed, language dropdown present and currently open, three navigation
items of which the first two carry the active class. -/
def sampleMenu : MenuState :=
  { burgerActive := false, navActive := false, headerActive := false
    burgerAria := "false", langPresent := true, langListPresent := true
    langListActive := true, langMenuActive := true, langAria := "true"
    navItems := [true, true, false], permite := false, deadline := none }

/-! ## Theorems -/

/-- **C1.** Polling strategy, one evaluation pass: the pass applies the
per-element branch to every tracked element; for each element, if
`top ≤ viewportHeight / 1.25` the active class is added; otherwise, if
`top > viewportHeight`, it is removed; and in the middle region
(`viewportHeight / 1.25 < top ≤ viewportHeight`) the element is left
completely unchanged — the two tests are not complements. -/
theorem scrollReveal_polling_pass (vh top : ℚ) (b : Bool) (els : List SRElem) :
    handleScrollPass vh els = els.map (evalScrollElement vh) ∧
    (top ≤ vh / 1.25 → (evalScrollElement vh ⟨top, b⟩).active = true) ∧
    (¬ top ≤ vh / 1.25 → vh < top → (evalScrollElement vh ⟨top, b⟩).active = false) ∧
    (vh / 1.25 < top → top ≤ vh → evalScrollElement vh ⟨top, b⟩ = ⟨top, b⟩) := by
  refine ⟨rfl, ?_, ?_, ?_⟩
  · intro h
    simp [evalScrollElement, elementInView, h]
  · intro h h2
    simp [evalScrollElement, elementInView, elementOutOfView, h, h2]
  · intro h h2
    simp [evalScrollElement, elementInView, elementOutOfView, not_le.mpr h, not_lt.mpr h2]

/-- Witness for C1 at viewport height 100 (threshold 80): top 79 is
revealed, top 101 is hidden, top 90 keeps its prior state. -/
theorem scrollReveal_polling_pass_witness :
    (evalScrollElement 100 ⟨79, false⟩).active = true ∧
    (evalScrollElement 100 ⟨101, true⟩).active = false ∧
    evalScrollElement 100 ⟨90, true⟩ = ⟨90, true⟩ :=
  ⟨(scrollReveal_polling_pass 100 79 false []).2.1 (by norm_num),
   (scrollReveal_polling_pass 100 101 true []).2.2.1 (by norm_num) (by norm_num),
   (scrollReveal_polling_pass 100 90 true []).2.2.2 (by norm_num) (by norm_num)⟩

/-- **C2 (code evaluation at the failing input).** For a navbar with one
navigation item and one language item, `destroy()` after a successful
`init()` does *not* leave zero listeners: the per-item `keydown` listeners
attached by `setupEventListeners` are never removed, because only the
stored click handlers are passed to `removeEventListener`. -/
theorem navbar_destroy_leaves_item_keydown_listeners :
    remainingAfterDestroy true 1 1 =
      [(NavTgt.navItem 0, NavEv.keydown), (NavTgt.langItem 0, NavEv.keydown)] := by
  decide

/-- **C3 (code evaluation at the failing input).** `destroy()` on an
instance constructed with `autoInit: false` throws (`navItems` is still
`null` when `destroy` reaches `this.navItems.forEach`), while `destroy()`
after an `init()` that aborted early succeeds, since the aborted `init()`
had already assigned NodeLists to the item collections. -/
theorem navbar_destroy_throws_when_never_initialized :
    destroyRun navbarConstructedState =
      Except.error "TypeError: cannot read forEach of null navItems" ∧
    (destroyRun navbarAbortedInitState).isOk = true := by
  constructor
  · rfl
  · rfl

/-- First frame from a fresh `start()`: `startTime` was `null`, so it is set
to the frame's timestamp, elapsed is 0, progress is 0 and another frame is
scheduled. -/
theorem fadeStep_first (d t0 : ℚ) :
    fadeStep (startState d) t0 = { startState d with startTime := some t0 } := by
  unfold fadeStep startState
  norm_num

/-- A frame whose elapsed time is still below the effective duration
`max 1 duration` writes `progress < 1` and schedules another frame. -/
theorem fadeStep_running (s : FadeState) (t0 t : ℚ) (h0 : 0 < t0)
    (hst : s.startTime = some t0)
    (ht : t - t0 < max 1 s.duration) :
    fadeStep s t =
      { s with startTime := some t0,
               opacity := min 1 ((t - t0) / max 1 s.duration),
               rafPending := true } := by
  have hM : (0 : ℚ) < max 1 s.duration := lt_of_lt_of_le one_pos (le_max_left _ _)
  have hlt : (t - t0) / max 1 s.duration < 1 := (div_lt_one hM).mpr ht
  have h1 : min 1 ((t - t0) / max 1 s.duration) < 1 :=
    lt_of_le_of_lt (min_le_right _ _) hlt
  unfold fadeStep
  rw [hst]
  simp only [h0.ne', if_false]
  rw [if_pos h1]

/-- A frame whose elapsed time has reached the effective duration
`max 1 duration` writes progress 1 and runs `cleanupStyle`, scheduling
nothing further. -/
theorem fadeStep_final (s : FadeState) (t0 t : ℚ) (h0 : 0 < t0)
    (hst : s.startTime = some t0)
    (ht : max 1 s.duration ≤ t - t0) :
    fadeStep s t =
      { s with startTime := some t0, opacity := 1, willChange := "",
               rafPending := false, cleanupCount := s.cleanupCount + 1 } := by
  have hM : (0 : ℚ) < max 1 s.duration := lt_of_lt_of_le one_pos (le_max_left _ _)
  have hge : (1 : ℚ) ≤ (t - t0) / max 1 s.duration := (one_le_div hM).mpr ht
  have h1 : ¬ min 1 ((t - t0) / max 1 s.duration) < 1 := by
    rw [not_lt]
    exact le_min le_rfl hge
  unfold fadeStep
  rw [hst]
  simp only [h0.ne', if_false]
  rw [if_neg h1]

/-- Splitting a frame sequence. -/
theorem runFrames_append (s : FadeState) (l1 l2 : List ℚ) :
    runFrames s (l1 ++ l2) = runFrames (runFrames s l1) l2 := by
  induction l1 generalizing s with
  | nil => rfl
  | cons t ts ih =>
    simp only [List.cons_append, runFrames]
    exact ih _

/-- Frames that all stay strictly inside the effective duration keep the
animation pending, with cleanup never run. -/
theorem runFrames_running (t0 : ℚ) (h0 : 0 < t0) (ts : List ℚ) :
    ∀ s : FadeState, s.startTime = some t0 → s.rafPending = true →
      s.cleanupCount = 0 → s.willChange = "opacity" →
      (∀ t ∈ ts, t - t0 < max 1 s.duration) →
      (runFrames s ts).startTime = some t0 ∧ (runFrames s ts).rafPending = true ∧
      (runFrames s ts).cleanupCount = 0 ∧ (runFrames s ts).willChange = "opacity" ∧
      (runFrames s ts).duration = s.duration := by
  induction ts with
  | nil => intro s h1 h2 h3 h4 _; exact ⟨h1, h2, h3, h4, rfl⟩
  | cons t ts ih =>
    intro s h1 h2 h3 h4 hb
    have hstep := fadeStep_running s t0 t h0 h1 (hb t (List.mem_cons_self t ts))
    have hrw : runFrames s (t :: ts) = runFrames (fadeStep s t) ts := by
      simp only [runFrames, h2, if_true]
    rw [hrw, hstep]
    exact ih _ rfl rfl h3 h4 (fun u hu => hb u (List.mem_cons_of_mem t hu))

/-- **C4 (counterexample).** With configured duration 0 (the claim's
`duration ≤ 0` case), the very first animation-frame callback (at timestamp
5) computes `elapsed = 0`, hence `progress = min(1, 0 / max(1, 0)) = 0`:
progress is not 1, the Settled cleanup does not run, and a further frame IS
scheduled — the claim's "completes immediately on the first frame" is
false. -/
theorem fade_zero_duration_first_frame_incomplete :
    (fadeStep (startState 0) 5).opacity = 0 ∧
    (fadeStep (startState 0) 5).rafPending = true ∧
    (fadeStep (startState 0) 5).cleanupCount = 0 := by
  norm_num [fadeStep, startState]

/-- **C4 (amended).** A configured duration `d ≤ 0` is clamped to 0, after
which the loop behaves as a 1 ms animation (denominator `max(1, 0) = 1`):
the first frame writes progress 0 and schedules another frame, and the
animation completes — progress 1, cleanup run exactly once, no further
frame — on the first frame whose elapsed time is at least 1 ms. -/
theorem fadeController_nonpos_duration (d t0 t1 : ℚ)
    (hd : d ≤ 0) (h0 : 0 < t0) (h1 : t0 + 1 ≤ t1) :
    (startState d).duration = 0 ∧
    (fadeStep (startState d) t0).opacity = 0 ∧
    (fadeStep (startState d) t0).rafPending = true ∧
    (fadeStep (startState d) t0).cleanupCount = 0 ∧
    (runFrames (startState d) [t0, t1]).opacity = 1 ∧
    (runFrames (startState d) [t0, t1]).cleanupCount = 1 ∧
    (runFrames (startState d) [t0, t1]).rafPending = false := by
  have hdur : (startState d).duration = 0 := by
    simp [startState, max_eq_left hd]
  have e1 : runFrames (startState d) [t0, t1] =
      runFrames (fadeStep (startState d) t0) [t1] := rfl
  have hfirst := fadeStep_first d t0
  have hbound : max 1 ({ startState d with startTime := some t0 } : FadeState).duration
      ≤ t1 - t0 := by
    show max 1 (startState d).duration ≤ t1 - t0
    rw [hdur]
    norm_num
    linarith
  have hfin := fadeStep_final { startState d with startTime := some t0 } t0 t1 h0 rfl hbound
  have e2 : runFrames ({ startState d with startTime := some t0 } : FadeState) [t1] =
      fadeStep { startState d with startTime := some t0 } t1 := rfl
  refine ⟨hdur, ?_, ?_, ?_, ?_, ?_, ?_⟩
  · rw [hfirst]; simp [startState]
  · rw [hfirst]; simp [startState]
  · rw [hfirst]; simp [startState]
  · rw [e1, hfirst, e2, hfin]
  · rw [e1, hfirst, e2, hfin]; simp [startState]
  · rw [e1, hfirst, e2, hfin]

/-- Witness for the amended C4 at duration 0, frames at 5 and 6. -/
theorem fadeController_nonpos_duration_witness :
    (startState (0 : ℚ)).duration = 0 ∧
    (fadeStep (startState 0) 5).opacity = 0 ∧
    (fadeStep (startState 0) 5).rafPending = true ∧
    (fadeStep (startState 0) 5).cleanupCount = 0 ∧
    (runFrames (startState 0) [5, 6]).opacity = 1 ∧
    (runFrames (startState 0) [5, 6]).cleanupCount = 1 ∧
    (runFrames (startState 0) [5, 6]).rafPending = false :=
  fadeController_nonpos_duration 0 5 6 (by norm_num) (by norm_num) (by norm_num)

/-- **C5 (counterexample).** Duration `D = 1/2 > 0`: a run whose final
frame has elapsed exactly `D` (first frame at 1, final frame at `3/2`)
yields `progress = min(1, (1/2) / max(1, 1/2)) = 1/2`, not 1, and cleanup
has not run at all — the claim's "for every duration D > 0" is false for
`0 < D < 1`. -/
theorem fade_fractional_duration_counterexample :
    (fadeRun (1/2) 1 []).opacity = 1/2 ∧
    (fadeRun (1/2) 1 []).cleanupCount = 0 ∧
    (fadeRun (1/2) 1 []).rafPending = true := by
  norm_num [fadeRun, runFrames, fadeStep, startState]

/-- **C5 (amended).** For every duration `D ≥ 1` (so that
`max(1, D) = D`), a run whose first frame is at `t0`, whose intermediate
frames all lie before `t0 + D`, and whose final frame has elapsed exactly
`D`, ends with progress exactly 1, the cleanup (clear `willChange`, force
opacity to 1) triggered exactly once, and no further frame scheduled. -/
theorem fadeController_elapsed_duration (D t0 : ℚ) (ts : List ℚ)
    (hD : 1 ≤ D) (h0 : 0 < t0) (hts : ∀ t ∈ ts, t < t0 + D) :
    (fadeRun D t0 ts).opacity = 1 ∧ (fadeRun D t0 ts).cleanupCount = 1 ∧
    (fadeRun D t0 ts).rafPending = false ∧ (fadeRun D t0 ts).willChange = "" := by
  have hD0 : max 0 D = D := max_eq_right (le_trans zero_le_one hD)
  have hD1 : max 1 D = D := max_eq_right hD
  have h1 : fadeRun D t0 ts = runFrames (fadeStep (startState D) t0) (ts ++ [t0 + D]) := rfl
  rw [h1, fadeStep_first, runFrames_append]
  set s1 : FadeState := { startState D with startTime := some t0 } with hs1
  have hdur : s1.duration = D := by simp [hs1, startState, hD0]
  have hmid := runFrames_running t0 h0 ts s1 rfl rfl rfl rfl
    (fun t ht => by rw [hdur, hD1]; have := hts t ht; linarith)
  obtain ⟨m1, m2, m3, m4, m5⟩ := hmid
  have hfin := fadeStep_final (runFrames s1 ts) t0 (t0 + D) h0 m1
    (by rw [m5, hdur, hD1]; linarith)
  have e2 : runFrames (runFrames s1 ts) [t0 + D] = fadeStep (runFrames s1 ts) (t0 + D) := by
    simp only [runFrames, m2, if_true]
  rw [e2, hfin]
  exact ⟨rfl, by simp [m3], rfl, rfl⟩

/-- Witness for the amended C5 at duration 2, first frame at 5, final
frame at 7. -/
theorem fadeController_elapsed_duration_witness :
    (fadeRun 2 5 []).opacity = 1 ∧ (fadeRun 2 5 []).cleanupCount = 1 ∧
    (fadeRun 2 5 []).rafPending = false ∧ (fadeRun 2 5 []).willChange = "" :=
  fadeController_elapsed_duration 2 5 [] (by norm_num) (by norm_num) (by simp)

/-- An element the observer no longer observes receives no notifications:
its state is fixed under any further notification sequence. -/
theorem notifyAll_unobserved (once : Bool) (ns : List Bool) :
    notifyAll once ⟨true, false⟩ ns = ⟨true, false⟩ := by
  induction ns with
  | nil => rfl
  | cons n ns ih => exact ih

/-- **C6.** Observation strategy with reveal-once set: an intersecting
notification for an observed element marks it revealed and unobserves it
at that moment, and no later notification sequence — including
non-intersecting entries — ever unmarks it or re-observes it. -/
theorem observer_revealOnce (e : ObsElem) (ns : List Bool) (ho : e.observed = true) :
    notifyEntry true true e = ⟨true, false⟩ ∧
    (notifyAll true (notifyEntry true true e) ns).active = true ∧
    (notifyAll true (notifyEntry true true e) ns).observed = false := by
  have h1 : notifyEntry true true e = ⟨true, false⟩ := by
    cases e
    simp_all [notifyEntry]
  rw [h1, notifyAll_unobserved]
  exact ⟨rfl, rfl, rfl⟩

/-- Witness for C6: a not-yet-revealed observed element, revealed by one
intersecting entry, then notified non-intersecting, intersecting and
non-intersecting again. -/
theorem observer_revealOnce_witness :
    notifyEntry true true ⟨false, true⟩ = ⟨true, false⟩ ∧
    (notifyAll true (notifyEntry true true ⟨false, true⟩) [false, true, false]).active = true ∧
    (notifyAll true (notifyEntry true true ⟨false, true⟩) [false, true, false]).observed = false :=
  observer_revealOnce ⟨false, true⟩ [false, true, false] rfl

/-- Mapping every item to `false` yields the all-`false` list. -/
theorem map_false_replicate (l : List Bool) :
    l.map (fun _ => false) = List.replicate l.length false := by
  induction l with
  | nil => rfl
  | cons b bs ih => simp [List.replicate, ih]

/-- `classList.toggle` on position `i` of an all-cleared item list produces
the distribution with exactly position `i` active. -/
theorem toggleItem_map_false (l : List Bool) (i : ℕ) (hi : i < l.length) :
    toggleItem (l.map (fun _ => false)) i = exactlyOne l.length i := by
  induction l generalizing i with
  | nil => simp at hi
  | cons b bs ih =>
    cases i with
    | zero =>
      simp only [List.map, toggleItem, exactlyOne, List.length_cons]
      rw [map_false_replicate]
      rfl
    | succ j =>
      simp only [List.map, toggleItem, exactlyOne, List.length_cons]
      exact congrArg (List.cons false) (ih j (Nat.lt_of_succ_lt_succ hi))

/-- The exactly-one distribution has the expected length. -/
theorem exactlyOne_length (n i : ℕ) : (exactlyOne n i).length = n := by
  induction n generalizing i with
  | zero => rfl
  | succ m ih =>
    cases i with
    | zero => simp [exactlyOne]
    | succ j => simp [exactlyOne, ih j]

/-- **C7.** Clicking (or Enter/Space-activating) navigation item `i` leaves
exactly one item carrying the active class, namely item `i`: all items are
cleared first, then the clicked one is toggled on — for every prior
distribution of the active class, including one where item `i` was already
active. -/
theorem navItemClick_exactlyOne (s : MenuState) (t : ℚ) (i : ℕ)
    (hi : i < s.navItems.length) :
    (onNavItemClick t i s).navItems = exactlyOne s.navItems.length i := by
  have h : (onNavItemClick t i s).navItems =
      toggleItem (s.navItems.map (fun _ => false)) i := rfl
  rw [h, toggleItem_map_false s.navItems i hi]

/-- Witness for C7: clicking the second of three items, the first two
previously active, leaves exactly the second active. -/
theorem navItemClick_exactlyOne_witness :
    (onNavItemClick 0 1 sampleMenu).navItems = exactlyOne 3 1 :=
  navItemClick_exactlyOne sampleMenu 0 1 (by norm_num [sampleMenu])

/-- A scheduled suppression timer whose firing time has not yet arrived
leaves the state untouched. -/
theorem fireDueTimer_not_due (t d : ℚ) (s : MenuState)
    (hd : s.deadline = some d) (h : t < d) : fireDueTimer t s = s := by
  unfold fireDueTimer
  rw [hd]
  show (if d ≤ t then { s with permite := false, deadline := none } else s) = s
  rw [if_neg (not_le.mpr h)]

/-- A scheduled suppression timer whose firing time has arrived has reset
`permiteClickReciente` before the callback at `t` runs. -/
theorem fireDueTimer_due (t d : ℚ) (s : MenuState)
    (hd : s.deadline = some d) (h : d ≤ t) :
    fireDueTimer t s = { s with permite := false, deadline := none } := by
  unfold fireDueTimer
  rw [hd]
  show (if d ≤ t then { s with permite := false, deadline := none } else s) = _
  rw [if_pos h]

/-- **C8.** After clicking navigation item `i` at time `tc`, a coalesced
scroll handler running at time `ts` inside the 800 ms suppression window
leaves the item distribution exactly as the click left it (only item `i`
active), while a scroll handler running once the 800 ms window has elapsed
clears the active class from every item. -/
theorem navScroll_suppressionWindow (s : MenuState) (i : ℕ) (tc ts : ℚ)
    (hi : i < s.navItems.length) :
    (ts < tc + 800 →
      (scrollFrameAt ts (onNavItemClick tc i s)).navItems =
        exactlyOne s.navItems.length i) ∧
    (tc + 800 ≤ ts →
      (scrollFrameAt ts (onNavItemClick tc i s)).navItems =
        List.replicate s.navItems.length false) := by
  have hdl : (onNavItemClick tc i s).deadline = some (tc + 800) := rfl
  have hpm : (onNavItemClick tc i s).permite = true := rfl
  have hnav : (onNavItemClick tc i s).navItems =
      toggleItem (s.navItems.map (fun _ => false)) i := rfl
  have hlen : (toggleItem (s.navItems.map (fun _ => false)) i).length
      = s.navItems.length := by
    rw [toggleItem_map_false s.navItems i hi, exactlyOne_length]
  constructor
  · intro h
    unfold scrollFrameAt
    rw [fireDueTimer_not_due ts (tc + 800) _ hdl h, if_pos hpm, hnav,
      toggleItem_map_false s.navItems i hi]
  · intro h
    unfold scrollFrameAt
    rw [fireDueTimer_due ts (tc + 800) _ hdl h]
    have hcond : ({ onNavItemClick tc i s with
        permite := false, deadline := none } : MenuState).permite = false := rfl
    rw [hcond, if_neg Bool.false_ne_true]
    show (onNavItemClick tc i s).navItems.map (fun _ => false) = _
    rw [hnav, map_false_replicate]
    exact congrArg (fun n => List.replicate n false) hlen

/-- Witness for C8: click item 1 at time 0; a scroll frame at 500 keeps
item 1 active, a scroll frame at 900 clears every item. -/
theorem navScroll_suppressionWindow_witness :
    (scrollFrameAt 500 (onNavItemClick 0 1 sampleMenu)).navItems = exactlyOne 3 1 ∧
    (scrollFrameAt 900 (onNavItemClick 0 1 sampleMenu)).navItems =
      List.replicate 3 false :=
  ⟨(navScroll_suppressionWindow sampleMenu 1 0 500 (by norm_num [sampleMenu])).1
      (by norm_num),
   (navScroll_suppressionWindow sampleMenu 1 0 900 (by norm_num [sampleMenu])).2
      (by norm_num)⟩

/-- **C9.** Activating the burger toggle twice in succession is an identity
on the menu state: starting from the closed menu (none of the three state
classes present), after two activations the toggle button, nav container
and header classes added by the first activation are all removed again and
the toggle button's `aria-expanded` is back to `"false"`. -/
theorem burgerToggle_twice_identity (s : MenuState)
    (hb : s.burgerActive = false) (hn : s.navActive = false)
    (hh : s.headerActive = false) :
    (onBurgerClick (onBurgerClick s)).burgerActive = false ∧
    (onBurgerClick (onBurgerClick s)).navActive = false ∧
    (onBurgerClick (onBurgerClick s)).headerActive = false ∧
    (onBurgerClick (onBurgerClick s)).burgerAria = "false" := by
  unfold onBurgerClick closeLangMenu toggleMenuElements
  by_cases hp : s.langPresent = true <;>
    simp [hp, hb, hn, hh]

/-- Witness for C9: two burger activations on the sample closed-menu
state. -/
theorem burgerToggle_twice_identity_witness :
    (onBurgerClick (onBurgerClick sampleMenu)).burgerActive = false ∧
    (onBurgerClick (onBurgerClick sampleMenu)).navActive = false ∧
    (onBurgerClick (onBurgerClick sampleMenu)).headerActive = false ∧
    (onBurgerClick (onBurgerClick sampleMenu)).burgerAria = "false" :=
  burgerToggle_twice_identity sampleMenu rfl rfl rfl

/-- **C10.** Every burger activation closes the language dropdown,
whichever direction the menu toggles: on a page where the language menu and
list exist, after `onBurgerClick` the language-list and language-menu
active classes are removed and the language menu's `aria-expanded` is
`"false"`, for every prior state. -/
theorem burgerClick_closesLangDropdown (s : MenuState)
    (hp : s.langPresent = true) (hl : s.langListPresent = true) :
    (onBurgerClick s).langListActive = false ∧
    (onBurgerClick s).langMenuActive = false ∧
    (onBurgerClick s).langAria = "false" := by
  unfold onBurgerClick closeLangMenu toggleMenuElements
  simp [hp, hl]

/-- Witness for C10: a burger activation on the sample state, whose
language dropdown is open (both active classes set, `aria-expanded`
`"true"`). -/
theorem burgerClick_closesLangDropdown_witness :
    (onBurgerClick sampleMenu).langListActive = false ∧
    (onBurgerClick sampleMenu).langMenuActive = false ∧
    (onBurgerClick sampleMenu).langAria = "false" :=
  burgerClick_closesLangDropdown sampleMenu rfl rfl
